import Mathlib

/-!
Verification development for the mailctl thread-reconstruction and
reply-recommendation core (src/thread_analyzer.py) and its analysis
orchestrator (src/ai_analyzer.py).

The Python code is shallowly embedded: dictionaries holding a fixed set of
keys become structures, Python string operations become explicit functions
over character lists, and the external language-model classifier becomes an
abstract collaborator whose outcome (raise, null response, record response)
is a parameter.  Python truthiness of optional strings (None and the empty
string are both falsy) is modelled by explicit helper predicates.
-/

namespace Mailctl

/-! ## String helpers (Python semantics on ASCII text) -/

/-- Characters the Python regex class backslash-s matches on ASCII input. -/
def pyIsSpace (c : Char) : Bool :=
  c = ' ' || c = '\t' || c = '\n' || c = '\r' || c = '\x0b' || c = '\x0c'

/-- Python str.lower, modelled on ASCII letters. -/
def pyLower (s : String) : String :=
  String.mk (s.toList.map Char.toLower)

/-- Does the first list start with the second one. -/
def listStartsWith : List Char → List Char → Bool
  | _, [] => true
  | [], _ :: _ => false
  | c :: cs, p :: ps => c = p && listStartsWith cs ps

/-- Does the first list contain the second as a contiguous run. -/
def listContainsSub (hay pat : List Char) : Bool :=
  match hay with
  | [] => pat.isEmpty
  | _ :: rest => listStartsWith hay pat || listContainsSub rest pat

/-- Python substring containment, `pat in hay`. -/
def strContains (hay pat : String) : Bool :=
  listContainsSub hay.toList pat.toList

/-- Helper for `splitWs`: walk the characters, accumulating the current
token; whitespace flushes the token.  Mirrors Python str.split with no
separator (runs of whitespace split, empty tokens dropped). -/
def splitWsAux : List Char → List Char → List String
  | [], acc => if acc.isEmpty then [] else [String.mk acc]
  | c :: rest, acc =>
    if pyIsSpace c then
      (if acc.isEmpty then [] else [String.mk acc]) ++ splitWsAux rest []
    else splitWsAux rest (acc ++ [c])

/-- Python str.split() (whitespace split, empties dropped). -/
def splitWs (s : String) : List String :=
  splitWsAux s.toList []

/-- Replace each maximal whitespace run by a single space; the Bool flag
records whether the previous character was whitespace. -/
def collapseWsAux : List Char → Bool → List Char
  | [], _ => []
  | c :: rest, prevSpace =>
    if pyIsSpace c then
      (if prevSpace then collapseWsAux rest true else ' ' :: collapseWsAux rest true)
    else c :: collapseWsAux rest false

/-- Strip leading and trailing spaces (after collapsing, the only
whitespace character left is the space). -/
def stripSpaces (l : List Char) : List Char :=
  ((l.dropWhile (· = ' ')).reverse.dropWhile (· = ' ')).reverse

/-! ## Data model

A message as the analyzer sees it: the Python dictionaries carry the keys
id, sender, subject, body and headers; header name lookup is
case-insensitive (the code lowers the name before comparing). -/

structure Header where
  name : String
  value : String
deriving DecidableEq, Repr

structure Email where
  id : String
  sender : String
  subject : String
  body : String
  headers : List Header
deriving DecidableEq, Repr

/-- Default email used only as the out-of-range value of `List.getD`. -/
def dEmail : Email := { id := "", sender := "", subject := "", body := "", headers := [] }

instance : Inhabited Email := ⟨dEmail⟩

/-- Python truthiness of an optional string: None and "" are falsy. -/
def pyTruthy (o : Option String) : Bool :=
  match o with
  | none => false
  | some s => s ≠ ""

/-! ## ThreadAnalyzer._normalize_message_id and _normalize_subject -/

/-- Remove angle brackets and whitespace, re.sub of the class <>backslash-s. -/
def normalize_message_id (s : String) : String :=
  String.mk (s.toList.filter (fun c => !(c = '<' || c = '>' || pyIsSpace c)))

/-- Lowercase, strip one leading re:/fwd:/fw: prefix together with the
whitespace after it, collapse whitespace runs to single spaces and strip. -/
def normalize_subject (subject : String) : String :=
  let lowered := pyLower subject
  let stripped :=
    if lowered.startsWith "re:" then (lowered.toList.drop 3).dropWhile pyIsSpace
    else if lowered.startsWith "fwd:" then (lowered.toList.drop 4).dropWhile pyIsSpace
    else if lowered.startsWith "fw:" then (lowered.toList.drop 3).dropWhile pyIsSpace
    else lowered.toList
  String.mk (stripSpaces (collapseWsAux stripped false))

/-! ## ThreadAnalyzer.extract_thread_id

The header scan keeps, for each of the three threading headers, the value
of its last occurrence; In-Reply-To and Message-ID are stored normalized,
References is stored raw, exactly as in the source loop. -/

/-- Scan the header list: (in_reply_to, references, message_id). -/
def scanThreadingHeaders (headers : List Header) :
    Option String × Option String × Option String :=
  headers.foldl
    (fun acc hd =>
      let name := pyLower hd.name
      if name = "message-id" then (acc.1, acc.2.1, some (normalize_message_id hd.value))
      else if name = "in-reply-to" then (some (normalize_message_id hd.value), acc.2.1, acc.2.2)
      else if name = "references" then (acc.1, some hd.value, acc.2.2)
      else acc)
    (none, none, none)

/-- The whitespace-separated tokens of the References value, empty when the
header is absent or its raw value is falsy (mirrors the nested
`if references:` / `if refs:` tests of the source). -/
def refTokensOf (references : Option String) : List String :=
  match references with
  | some rv => if rv ≠ "" then splitWs rv else []
  | none => []

/-- The thread key of a message.  `h` stands for the Python builtin string
hash used by the subject fallback (seed-dependent in CPython, hence kept
abstract as a parameter; no claim depends on its values). -/
def extract_thread_id (h : String → Int) (email : Email) : String :=
  let scanned := scanThreadingHeaders email.headers
  let in_reply_to := scanned.1
  let references := scanned.2.1
  let message_id := scanned.2.2
  if pyTruthy in_reply_to then in_reply_to.getD ""
  else
    match refTokensOf references with
    | t :: _ => normalize_message_id t
    | [] =>
      if pyTruthy message_id then message_id.getD ""
      else "subject-" ++ toString (h (normalize_subject email.subject))

/-! ## ThreadAnalyzer._get_email_timestamp

The source scans the headers for a Date header, but the try block returns
the current time without looking at the value (the comment in the source
calls this a simplification); the fallback is also the current time.  The
time of observation is the `now` parameter. -/

def get_email_timestamp (now : Nat) (email : Email) : Nat :=
  match email.headers.find? (fun hd => pyLower hd.name = "date") with
  | some _ => now
  | none => now

/-! ## Sorting within a bucket

Python list.sort(key=...) is a stable sort; any stable insertion by key is
observationally the same function, which is what is embedded here. -/

def insertByKey (key : Email → Nat) (e : Email) : List Email → List Email
  | [] => [e]
  | x :: xs => if key e ≤ key x then e :: x :: xs else x :: insertByKey key e xs

def sortByKey (key : Email → Nat) : List Email → List Email
  | [] => []
  | x :: xs => insertByKey key x (sortByKey key xs)

/-! ## ThreadAnalyzer.group_emails_by_thread

A Python dict with insertion-ordered keys becomes an association list. -/

/-- Append `e` to the bucket of key `k`, creating the bucket at the end
when the key is new (dict insertion order). -/
def addToBuckets (buckets : List (String × List Email)) (k : String) (e : Email) :
    List (String × List Email) :=
  match buckets with
  | [] => [(k, [e])]
  | (k', es) :: rest =>
    if k' = k then (k', es ++ [e]) :: rest else (k', es) :: addToBuckets rest k e

def buildBuckets (h : String → Int) : List Email → List (String × List Email) →
    List (String × List Email)
  | [], acc => acc
  | e :: rest, acc => buildBuckets h rest (addToBuckets acc (extract_thread_id h e) e)

def group_emails_by_thread (h : String → Int) (now : Nat) (emails : List Email) :
    List (String × List Email) :=
  (buildBuckets h emails []).map (fun p => (p.1, sortByKey (get_email_timestamp now) p.2))

/-! ## ThreadAnalyzer.get_thread_context -/

def get_thread_context (h : String → Int) (now : Nat) (email : Email)
    (all_emails : List Email) : List Email :=
  let tid := extract_thread_id h email
  let thread_emails := all_emails.filter (fun o => extract_thread_id h o == tid)
  let sorted := sortByKey (get_email_timestamp now) thread_emails
  sorted.filter (fun e2 => e2.id != email.id)

/-! ## ThreadAnalyzer.analyze_thread_patterns -/

structure ThreadAnalysisR where
  thread_length : Nat
  participants : List String
  response_pattern : List String
  urgency_escalation : Bool
  question_count : Nat
  action_items : List String
deriving DecidableEq, Repr

def urgency_keywords : List String := ["urgent", "asap", "immediate", "deadline", "emergency"]

def action_phrases : List String := ["please", "can you", "need to", "should we"]

/-- Python set.add on the participants set, modelled as a duplicate-free
list in insertion order (CPython iterates sets in hash order; no claim
depends on the enumeration order, only on the underlying set). -/
def addParticipant (l : List String) (s : String) : List String :=
  if s ∈ l then l else l ++ [s]

/-- The response-pattern entry appended for one message.  The source test
is `if previous_sender and previous_sender != sender`, so a previous
sender that is None (first message) or the empty string yields
"continuation". -/
def respEntry (prev : Option String) (sender : String) : String :=
  match prev with
  | none => "continuation"
  | some p => if p ≠ "" ∧ p ≠ sender then "response" else "continuation"

def hasUrgencyKeyword (email : Email) : Bool :=
  urgency_keywords.any
    (fun k => strContains (pyLower email.body) k || strContains (pyLower email.subject) k)

def hasActionPhrase (email : Email) : Bool :=
  action_phrases.any (fun p => strContains (pyLower email.body) p)

/-- One iteration of the analysis loop at index `i` with the previous
sender `prev` (urgency may only be switched on when `0 < i`, and is
never reset). -/
def patternsStep (i : Nat) (prev : Option String) (acc : ThreadAnalysisR)
    (email : Email) : ThreadAnalysisR :=
  { thread_length := acc.thread_length
    participants := addParticipant acc.participants email.sender
    response_pattern := acc.response_pattern ++ [respEntry prev email.sender]
    urgency_escalation := acc.urgency_escalation || (hasUrgencyKeyword email && decide (0 < i))
    question_count := acc.question_count + (pyLower email.body).toList.count '?'
    action_items := acc.action_items ++
      (if hasActionPhrase email then ["Email " ++ toString (i + 1) ++ ": Action requested"]
       else []) }

def patternsLoop (i : Nat) (prev : Option String) (acc : ThreadAnalysisR) :
    List Email → ThreadAnalysisR
  | [] => acc
  | e :: rest => patternsLoop (i + 1) (some e.sender) (patternsStep i prev acc e) rest

/-- The empty thread returns the empty dict in the source; callers then
read it with .get and defaults, which the taGet helpers below mirror. -/
def analyze_thread_patterns (thread_emails : List Email) : Option ThreadAnalysisR :=
  match thread_emails with
  | [] => none
  | _ => some (patternsLoop 0 none
      { thread_length := thread_emails.length, participants := [], response_pattern := []
        urgency_escalation := false, question_count := 0, action_items := [] }
      thread_emails)

/-- .get of urgency_escalation with default None (falsy). -/
def taGetUrgency (o : Option ThreadAnalysisR) : Bool :=
  match o with
  | none => false
  | some a => a.urgency_escalation

/-- .get of thread_length with an explicit default. -/
def taGetLength (d : Nat) (o : Option ThreadAnalysisR) : Nat :=
  match o with
  | none => d
  | some a => a.thread_length

/-- .get of question_count with default 0. -/
def taGetQuestions (o : Option ThreadAnalysisR) : Nat :=
  match o with
  | none => 0
  | some a => a.question_count

/-- .get of participants with default empty list. -/
def taGetParticipants (o : Option ThreadAnalysisR) : List String :=
  match o with
  | none => []
  | some a => a.participants

/-! ## ThreadAnalyzer.get_conversation_summary -/

/-- The distinct sender set of the thread, as built by the set
comprehension of the source (insertion-order model of the set). -/
def summaryParticipants (emails : List Email) : List String :=
  emails.foldl (fun acc e => addParticipant acc e.sender) []

def get_conversation_summary (thread_emails : List Email) : String :=
  match thread_emails with
  | [] => "No conversation history"
  | [_] => "First message in conversation"
  | _ :: _ :: _ =>
    let participants := summaryParticipants thread_emails
    let subjects := thread_emails.map (fun e => e.subject)
    let key_topics : List String :=
      match subjects with
      | [] => []
      | _ :: _ => [normalize_subject (subjects.getLastD "")]
    let base := "Conversation with " ++ toString participants.length ++ " participants ("
      ++ String.intercalate ", " (participants.take 3)
      ++ (if 3 < participants.length
          then " +" ++ toString (participants.length - 3) ++ " others" else "")
      ++ "), " ++ toString thread_emails.length ++ " messages"
    match key_topics with
    | t :: _ => base ++ ". Topic: " ++ t.take 50
    | [] => base

/-! ## ThreadAnalyzer.should_draft_reply -/

structure Recommendation where
  should_reply : Bool
  reply_urgency : String
  reply_type : String
  confidence : ℚ
deriving DecidableEq, Repr

def reply_indicators : List String := ["?", "please", "can you", "what do you think"]

def scheduling_words : List String := ["meeting", "schedule", "calendar"]

def should_draft_reply (email : Email) (thread_context : List Email) : Recommendation :=
  let thread_analysis := analyze_thread_patterns (thread_context ++ [email])
  let body := pyLower email.body
  let r : Recommendation :=
    { should_reply := false, reply_urgency := "normal", reply_type := "standard"
      confidence := (1 : ℚ) / 2 }
  let r := if reply_indicators.any (fun p => strContains body p)
    then { r with should_reply := true, confidence := (4 : ℚ) / 5 } else r
  let r := if taGetUrgency thread_analysis
    then { r with reply_urgency := "high", confidence := min 1 (r.confidence + (1 : ℚ) / 5) }
    else r
  let r := if 5 < taGetLength 0 thread_analysis then { r with reply_type := "summary" }
    else if scheduling_words.any (fun w => strContains body w)
      then { r with reply_type := "scheduling" }
    else if 2 < taGetQuestions thread_analysis
      then { r with reply_type := "detailed_response" }
    else r
  r

/-! ## AIAnalyzer (src/ai_analyzer.py)

The external language-model collaborator is abstract.  One call of the
source either raises somewhere inside the try block (network failure, auth
failure, JSON parse failure - all caught by the bare except), or produces a
parsed JSON value: a record-shaped analysis dict, or a non-record value
such as null when the response text held no braces and json.loads yielded
None.  These outcomes form `ClassifierOutcome`. -/

structure ThreadContextInfo where
  thread_length : Nat
  participants : List String
  conversation_summary : String
  reply_recommended : Bool
  reply_urgency : String
  suggested_reply_type : String
deriving DecidableEq, Repr

/-- The analysis record: the keys produced by the classifier prompt of
analyze_email, plus the thread_context key attached by
analyze_email_with_context (absent until then). -/
structure AnalysisR where
  summary : String
  category : String
  priority : String
  suggested_action : String
  urgency_indicators : List String
  requires_response : Bool
  estimated_response_time : Option String
  task_description : Option String
  thread_position : String
  thread_context : Option ThreadContextInfo := none
deriving DecidableEq, Repr

/-- AIAnalyzer._fallback_analysis. -/
def fallback_analysis : AnalysisR :=
  { summary := "AI analysis unavailable"
    category := "Unknown"
    priority := "Medium"
    suggested_action := "NoAction"
    urgency_indicators := []
    requires_response := false
    estimated_response_time := none
    task_description := none
    thread_position := "Unknown"
    thread_context := none }

inductive ClassifierOutcome where
  | raises
  | nullResponse
  | record (r : AnalysisR)
deriving DecidableEq

/-- The external classifier collaborator: what one call on the given
sender/subject/body produces. -/
def Classifier : Type := String → String → String → ClassifierOutcome

/-- AIAnalyzer.analyze_email.  A missing client (no API key) returns the
fallback; a raising call is caught and returns the fallback; a parsed
record is returned as is; a parsed null is returned as None. -/
def analyze_email (client : Option Classifier) (sender subject body : String) :
    Option AnalysisR :=
  match client with
  | none => some fallback_analysis
  | some c =>
    match c sender subject body with
    | .raises => some fallback_analysis
    | .nullResponse => none
    | .record r => some r

/-- The thread-context enhancement block of analyze_email_with_context:
attach the thread_context field, then adjust priority. -/
def enhanceWithThread (basic : AnalysisR) (email : Email) (thread_context : List Email) :
    AnalysisR :=
  let thread_summary := get_conversation_summary (thread_context ++ [email])
  let reply_recommendations := should_draft_reply email thread_context
  let thread_analysis := analyze_thread_patterns (thread_context ++ [email])
  let tc : ThreadContextInfo :=
    { thread_length := taGetLength 1 thread_analysis
      participants := taGetParticipants thread_analysis
      conversation_summary := thread_summary
      reply_recommended := reply_recommendations.should_reply
      reply_urgency := reply_recommendations.reply_urgency
      suggested_reply_type := reply_recommendations.reply_type }
  let b := { basic with thread_context := some tc }
  if reply_recommendations.reply_urgency = "high" then { b with priority := "High" }
  else if taGetUrgency thread_analysis then
    (if b.priority = "Low" then { b with priority := "Medium" } else b)
  else b

/-- AIAnalyzer.analyze_email_with_context.  The Python all_emails
parameter defaults to None and is tested for truthiness, so None and the
empty list behave alike; a single list parameter with [] models both. -/
def analyze_email_with_context (client : Option Classifier) (h : String → Int)
    (now : Nat) (email : Email) (all_emails : List Email) : Option AnalysisR :=
  match analyze_email client email.sender email.subject email.body with
  | none => none
  | some basic =>
    if all_emails = [] then some basic
    else if get_thread_context h now email all_emails = [] then some basic
    else some (enhanceWithThread basic email (get_thread_context h now email all_emails))

/-- The failure condition of claims C1 and C2: the collaborator is
misconfigured (no client) or the call for this message raises. -/
def classifier_fails (client : Option Classifier) (sender subject body : String) : Prop :=
  client = none ∨ ∃ c, client = some c ∧ c sender subject body = ClassifierOutcome.raises

/-! ## Claims about the Thread Identity Resolver (C3, C10) -/

/-- C3 (amended): a message carrying both an In-Reply-To and a References
header, whose In-Reply-To value normalizes to a non-empty string, resolves
to the normalized In-Reply-To value and never to a value derived from
References.  (The unamended claim fails when the In-Reply-To value
normalizes to the empty string, see the counterexample.) -/
theorem resolver_in_reply_to_priority (h : String → Int) (e : Email) (irt refs : String)
    (h1 : (scanThreadingHeaders e.headers).1 = some irt)
    (_h2 : (scanThreadingHeaders e.headers).2.1 = some refs)
    (hne : irt ≠ "") :
    extract_thread_id h e = irt := by
  unfold extract_thread_id
  dsimp only
  rw [h1]
  simp [pyTruthy, hne]

/-- C3 witness: a concrete message with both headers resolves to the
normalized In-Reply-To value. -/
theorem resolver_in_reply_to_priority_witness :
    extract_thread_id (fun _ => 0)
      { id := "1", sender := "a", subject := "x", body := ""
        headers := [⟨"In-Reply-To", "<a@b>"⟩, ⟨"References", "<r@s>"⟩] } = "a@b" :=
  resolver_in_reply_to_priority (fun _ => 0) _ "a@b" "<r@s>"
    (by decide) (by decide) (by decide)

/-- C3 counterexample: a message whose In-Reply-To value normalizes to the
empty string, with a References header, resolves to the first References
token, not to the normalized In-Reply-To value. -/
theorem resolver_in_reply_to_priority_cex :
    extract_thread_id (fun _ => 0)
      { id := "1", sender := "a", subject := "x", body := ""
        headers := [⟨"In-Reply-To", "<>"⟩, ⟨"References", "<a@b>"⟩] } = "a@b" ∧
    normalize_message_id "<>" = "" ∧ ("a@b" : String) ≠ normalize_message_id "<>" := by
  decide

/-- C10: a threading header whose normalized value is empty is skipped:
an empty-normalized In-Reply-To falls through to References (first
conjunct), then to Message-ID (second conjunct), then to the subject
fallback (third conjunct); likewise an empty-normalized Message-ID falls
through to the subject fallback (third conjunct). -/
theorem resolver_empty_normalized_fallthrough (h : String → Int) (e : Email) :
    ((scanThreadingHeaders e.headers).1 = some "" →
      ∀ rv t ts, (scanThreadingHeaders e.headers).2.1 = some rv →
        splitWs rv = t :: ts → extract_thread_id h e = normalize_message_id t) ∧
    ((scanThreadingHeaders e.headers).1 = some "" →
      refTokensOf (scanThreadingHeaders e.headers).2.1 = [] →
      ∀ m, (scanThreadingHeaders e.headers).2.2 = some m → m ≠ "" →
        extract_thread_id h e = m) ∧
    (pyTruthy (scanThreadingHeaders e.headers).1 = false →
      refTokensOf (scanThreadingHeaders e.headers).2.1 = [] →
      (scanThreadingHeaders e.headers).2.2 = some "" →
      extract_thread_id h e = "subject-" ++ toString (h (normalize_subject e.subject))) := by
  refine ⟨?_, ?_, ?_⟩
  · intro h1 rv t ts h2 hsplit
    unfold extract_thread_id
    dsimp only
    rw [h1, h2]
    have hrv : rv ≠ "" := by
      intro hrv
      rw [hrv] at hsplit
      simp [splitWs, splitWsAux] at hsplit
    simp [pyTruthy, refTokensOf, hrv, hsplit]
  · intro h1 htok m h3 hm
    unfold extract_thread_id
    dsimp only
    rw [h1, htok, h3]
    simp [pyTruthy, hm]
  · intro h1 htok h3
    unfold extract_thread_id
    dsimp only
    rw [h1, htok, h3]
    simp [pyTruthy]

/-- C10 witness: In-Reply-To, References and Message-ID all present but
empty after normalization; resolution lands on the subject fallback. -/
theorem resolver_empty_normalized_fallthrough_witness :
    extract_thread_id (fun _ => 7)
      { id := "1", sender := "a", subject := "Re: hello", body := ""
        headers := [⟨"In-Reply-To", "< >"⟩, ⟨"References", " "⟩, ⟨"Message-ID", "<>"⟩] }
      = "subject-7" :=
  ((resolver_empty_normalized_fallthrough (fun _ => 7)
      { id := "1", sender := "a", subject := "Re: hello", body := ""
        headers := [⟨"In-Reply-To", "< >"⟩, ⟨"References", " "⟩, ⟨"Message-ID", "<>"⟩] }).2.2
    (by decide) (by decide) (by decide)).trans (by decide)

/-! ## Claim about the Thread Message Timestamp policy (C5)

The source never parses the Date header value: the try block returns the
observation time whether or not a Date header is present, so sorting
within a bucket never follows Date order; insertion (fetch) order is kept
even when Date headers are present, parseable and descending. -/

/-- C5: the timestamp used for sorting is always the observation time,
regardless of the Date header; consequently two messages with distinct
parseable Date headers in descending order keep their fetch order inside
the bucket instead of being sorted into ascending Date order. -/
theorem timestamp_ignores_date_header :
    (∀ (now : Nat) (e : Email), get_email_timestamp now e = now) ∧
    group_emails_by_thread (fun _ => 0) 5
      [{ id := "later", sender := "a", subject := "t", body := ""
         headers := [⟨"Date", "Tue, 02 Jan 2024 10:00:00 +0000"⟩] },
       { id := "earlier", sender := "b", subject := "t", body := ""
         headers := [⟨"Date", "Mon, 01 Jan 2024 10:00:00 +0000"⟩] }] =
      [("subject-0",
        [{ id := "later", sender := "a", subject := "t", body := ""
           headers := [⟨"Date", "Tue, 02 Jan 2024 10:00:00 +0000"⟩] },
         { id := "earlier", sender := "b", subject := "t", body := ""
           headers := [⟨"Date", "Mon, 01 Jan 2024 10:00:00 +0000"⟩] }])] := by
  constructor
  · intro now e
    unfold get_email_timestamp
    split <;> rfl
  · decide

/-! ## Claims about the Thread Pattern Analyzer (C6) -/

/-- The response-pattern entries produced by the analysis loop from a given
previous sender onwards. -/
def respSpec : Option String → List Email → List String
  | _, [] => []
  | prev, e :: rest => respEntry prev e.sender :: respSpec (some e.sender) rest

theorem patternsLoop_response_pattern (l : List Email) : ∀ (i : Nat) (prev : Option String)
    (acc : ThreadAnalysisR),
    (patternsLoop i prev acc l).response_pattern = acc.response_pattern ++ respSpec prev l := by
  induction l with
  | nil => intro i prev acc; simp [patternsLoop, respSpec]
  | cons e rest ih =>
    intro i prev acc
    simp [patternsLoop, respSpec, ih, patternsStep]

theorem respSpec_length (l : List Email) : ∀ prev, (respSpec prev l).length = l.length := by
  induction l with
  | nil => intro prev; rfl
  | cons e rest ih => intro prev; simp [respSpec, ih]

theorem respSpec_getD_succ (l : List Email) : ∀ (prev : Option String) (i : Nat),
    i + 1 < l.length →
    (respSpec prev l).getD (i + 1) "" =
      respEntry (some ((l.getD i dEmail).sender)) ((l.getD (i + 1) dEmail).sender) := by
  induction l with
  | nil => intro prev i hi; simp at hi
  | cons e rest ih =>
    intro prev i hi
    match i, rest with
    | 0, [] => simp at hi
    | 0, f :: rest2 => simp [respSpec]
    | i' + 1, rest =>
      have hi2 : i' + 1 < rest.length := by simpa using hi
      simpa [respSpec] using ih (some e.sender) i' hi2

/-- C6 (amended): the response pattern has one entry per message; the
entry at index 0 is "continuation", and the entry at index i+1 is
"response" exactly when message i has a non-empty sender differing from
the sender of message i+1, else "continuation".  (The unamended claim,
which omits the non-empty condition on the previous sender, fails when
message i has an empty sender: the source tests the previous sender for
truthiness before comparing.) -/
theorem response_pattern_entries (emails : List Email) (a : ThreadAnalysisR)
    (ha : analyze_thread_patterns emails = some a) :
    a.response_pattern.length = emails.length ∧
    a.response_pattern.getD 0 "" = "continuation" ∧
    ∀ i, i + 1 < emails.length →
      a.response_pattern.getD (i + 1) "" =
        (if (emails.getD i dEmail).sender ≠ "" ∧
            (emails.getD i dEmail).sender ≠ (emails.getD (i + 1) dEmail).sender
         then "response" else "continuation") := by
  match emails with
  | [] => simp [analyze_thread_patterns] at ha
  | e :: rest =>
    have hrp : a.response_pattern = respSpec none (e :: rest) := by
      have h0 := (Option.some.injEq _ _).mp ha.symm
      rw [h0, patternsLoop_response_pattern]
      rfl
    refine ⟨?_, ?_, ?_⟩
    · rw [hrp, respSpec_length]
    · rw [hrp]; rfl
    · intro i hi
      rw [hrp, respSpec_getD_succ _ none i hi]
      rfl

/-- C6 counterexample: two messages whose senders differ ("" versus "a"),
yet the entry at index 1 is "continuation" because the previous sender is
the empty string (falsy). -/
theorem response_pattern_entries_cex :
    (analyze_thread_patterns
        [{ id := "1", sender := "", subject := "", body := "", headers := [] },
         { id := "2", sender := "a", subject := "", body := "", headers := [] }]).map
      (fun a => a.response_pattern) = some ["continuation", "continuation"] ∧
    ("" : String) ≠ "a" := by decide

/-- A thread on which the C6 witness instantiates the theorem. -/
def w6A : Email := { id := "1", sender := "ann", subject := "", body := "", headers := [] }

/-- Second message of the C6 witness thread. -/
def w6B : Email := { id := "2", sender := "bob", subject := "", body := "", headers := [] }

/-- Placeholder record for Option.getD in the C6 witness. -/
def w6D : ThreadAnalysisR :=
  { thread_length := 0, participants := [], response_pattern := []
    urgency_escalation := false, question_count := 0, action_items := [] }

/-- C6 witness: concrete two-message thread with distinct non-empty
senders; the entry at index 1 is "response". -/
theorem response_pattern_entries_witness :
    ((analyze_thread_patterns [w6A, w6B]).getD w6D).response_pattern.getD 1 "" = "response" :=
  ((response_pattern_entries [w6A, w6B] ((analyze_thread_patterns [w6A, w6B]).getD w6D)
      (by decide)).2.2 0 (by decide)).trans (by decide)

/-! ## Claims about the Reply Recommender (C7, C8) -/

theorem rec_ite_should_reply (c : Prop) [Decidable c] (a b : Recommendation) :
    (if c then a else b).should_reply = if c then a.should_reply else b.should_reply :=
  apply_ite Recommendation.should_reply c a b

theorem rec_ite_confidence (c : Prop) [Decidable c] (a b : Recommendation) :
    (if c then a else b).confidence = if c then a.confidence else b.confidence :=
  apply_ite Recommendation.confidence c a b

/-- The should_reply decision is exactly the rule-2 body test. -/
theorem should_draft_reply_should_reply_eq (email : Email) (ctx : List Email) :
    (should_draft_reply email ctx).should_reply =
      reply_indicators.any (fun p => strContains (pyLower email.body) p) := by
  by_cases h1 : (reply_indicators.any (fun p => strContains (pyLower email.body) p)) = true <;>
    simp [should_draft_reply, h1, rec_ite_should_reply, ite_self]

/-- The confidence is determined by the rule-2 body test and the
urgency-escalation signal of the thread including the candidate. -/
theorem should_draft_reply_confidence_eq (email : Email) (ctx : List Email) :
    (should_draft_reply email ctx).confidence =
      (if taGetUrgency (analyze_thread_patterns (ctx ++ [email]))
       then min 1 ((if reply_indicators.any (fun p => strContains (pyLower email.body) p)
                    then (4 : ℚ) / 5 else (1 : ℚ) / 2) + (1 : ℚ) / 5)
       else (if reply_indicators.any (fun p => strContains (pyLower email.body) p)
             then (4 : ℚ) / 5 else (1 : ℚ) / 2)) := by
  by_cases h1 : (reply_indicators.any (fun p => strContains (pyLower email.body) p)) = true <;>
    by_cases h2 : taGetUrgency (analyze_thread_patterns (ctx ++ [email])) = true <;>
      simp [should_draft_reply, h1, h2, rec_ite_confidence, ite_self]

/-- C7: for every candidate and prior thread the confidence lies in the
interval from 0 to 1, and when both the rule-2 body test and the rule-3
urgency escalation fire, the confidence is exactly 1. -/
theorem recommendation_confidence_bounds (email : Email) (ctx : List Email) :
    (0 ≤ (should_draft_reply email ctx).confidence ∧
     (should_draft_reply email ctx).confidence ≤ 1) ∧
    ((reply_indicators.any (fun p => strContains (pyLower email.body) p)) = true →
      taGetUrgency (analyze_thread_patterns (ctx ++ [email])) = true →
      (should_draft_reply email ctx).confidence = 1) := by
  rw [should_draft_reply_confidence_eq]
  constructor
  · by_cases h1 : (reply_indicators.any (fun p => strContains (pyLower email.body) p)) = true <;>
      by_cases h2 : taGetUrgency (analyze_thread_patterns (ctx ++ [email])) = true <;>
        simp [h1, h2, le_min_iff, min_le_iff] <;> norm_num
  · intro h1 h2
    simp [h1, h2]
    norm_num

/-- Prior message of the C7 witness thread. -/
def w7A : Email := { id := "1", sender := "ann", subject := "", body := "", headers := [] }

/-- Candidate message of the C7 witness: the body fires rule 2 (question
mark) and, being a non-first message with an urgency keyword, rule 3. -/
def w7B : Email := { id := "2", sender := "bob", subject := "", body := "urgent?", headers := [] }

/-- C7 witness: both rules fire on a concrete thread and the confidence is
exactly 1. -/
theorem recommendation_confidence_bounds_witness :
    (should_draft_reply w7B [w7A]).confidence = 1 :=
  (recommendation_confidence_bounds w7B [w7A]).2 (by decide) (by decide)

/-- C8: the should_reply field depends only on the candidate body: it is
the same for any two prior threads, and equals the rule-2 body test
(question mark or one of the case-insensitive phrases). -/
theorem should_reply_pure_in_body (email : Email) (ctx1 ctx2 : List Email) :
    (should_draft_reply email ctx1).should_reply =
      (should_draft_reply email ctx2).should_reply ∧
    (should_draft_reply email ctx1).should_reply =
      reply_indicators.any (fun p => strContains (pyLower email.body) p) := by
  refine ⟨?_, should_draft_reply_should_reply_eq email ctx1⟩
  rw [should_draft_reply_should_reply_eq, should_draft_reply_should_reply_eq]

/-! ## Claims about the Conversation Summarizer (C9) -/

theorem mem_addParticipant (l : List String) (s x : String) :
    x ∈ addParticipant l s ↔ x ∈ l ∨ x = s := by
  by_cases hs : s ∈ l <;> simp [addParticipant, hs]
  intro hx
  rw [hx]
  exact hs

theorem nodup_addParticipant (l : List String) (s : String) (h : l.Nodup) :
    (addParticipant l s).Nodup := by
  by_cases hs : s ∈ l <;> simp [addParticipant, hs, List.nodup_append, h]

theorem foldParts_nodup (emails : List Email) : ∀ acc : List String, acc.Nodup →
    (emails.foldl (fun acc e => addParticipant acc e.sender) acc).Nodup := by
  induction emails with
  | nil => intro acc h; simpa using h
  | cons e rest ih =>
    intro acc h
    simpa using ih (addParticipant acc e.sender) (nodup_addParticipant acc e.sender h)

theorem mem_foldParts (emails : List Email) : ∀ (acc : List String) (x : String),
    x ∈ emails.foldl (fun acc e => addParticipant acc e.sender) acc ↔
      x ∈ acc ∨ x ∈ emails.map (fun e => e.sender) := by
  induction emails with
  | nil => intro acc x; simp
  | cons e rest ih =>
    intro acc x
    rw [List.foldl_cons, ih (addParticipant acc e.sender) x, mem_addParticipant]
    simp
    tauto

/-- The participants list is duplicate-free and enumerates exactly the
distinct senders, so its length is the number of distinct senders. -/
theorem summaryParticipants_length (emails : List Email) :
    (summaryParticipants emails).length = (emails.map (fun e => e.sender)).toFinset.card := by
  have hnd : (summaryParticipants emails).Nodup := foldParts_nodup emails [] (by simp)
  have hset : (summaryParticipants emails).toFinset =
      (emails.map (fun e => e.sender)).toFinset := by
    apply Finset.ext
    intro x
    simp only [List.mem_toFinset]
    simpa using mem_foldParts emails [] x
  rw [← List.toFinset_card_of_nodup hnd, hset]

/-- C9 (amended): for a thread with at least two messages the summary is
the participants/messages sentence, and the Topic segment is appended
unconditionally - also when the last message has an empty subject, in
which case the rendered topic text is empty (the source tests the
one-element key_topics list for truthiness, which never fails, rather
than the subject itself).  The participant count is the number of
distinct senders. -/
theorem conversation_summary_format (e1 e2 : Email) (rest : List Email) :
    get_conversation_summary (e1 :: e2 :: rest) =
      "Conversation with " ++ toString (summaryParticipants (e1 :: e2 :: rest)).length
      ++ " participants ("
      ++ String.intercalate ", " ((summaryParticipants (e1 :: e2 :: rest)).take 3)
      ++ (if 3 < (summaryParticipants (e1 :: e2 :: rest)).length
          then " +" ++ toString ((summaryParticipants (e1 :: e2 :: rest)).length - 3) ++ " others"
          else "")
      ++ "), " ++ toString (rest.length + 2) ++ " messages"
      ++ ". Topic: "
      ++ (normalize_subject (((e1 :: e2 :: rest).map (fun e => e.subject)).getLastD "")).take 50 ∧
    (summaryParticipants (e1 :: e2 :: rest)).length =
      ((e1 :: e2 :: rest).map (fun e => e.sender)).toFinset.card := by
  constructor
  · simp [get_conversation_summary, summaryParticipants]
  · exact summaryParticipants_length (e1 :: e2 :: rest)

set_option maxRecDepth 8192 in
/-- C9 counterexample: the last message has an empty subject, yet the
Topic segment is still appended (with empty topic text); the string the
unamended claim predicts is not the one returned. -/
theorem conversation_summary_format_cex :
    get_conversation_summary
        [{ id := "1", sender := "a", subject := "", body := "", headers := [] },
         { id := "2", sender := "b", subject := "", body := "", headers := [] }] =
      "Conversation with 2 participants (a, b), 2 messages. Topic: " ∧
    get_conversation_summary
        [{ id := "1", sender := "a", subject := "", body := "", headers := [] },
         { id := "2", sender := "b", subject := "", body := "", headers := [] }] ≠
      "Conversation with 2 participants (a, b), 2 messages" := by
  constructor
  · decide
  · decide

/-! ## Claims about the Analysis Orchestrator (C1, C2) -/

/-- A failed or misconfigured classifier makes the base call return the
fallback record. -/
theorem analyze_email_of_fails (client : Option Classifier) (s p b : String)
    (hfail : classifier_fails client s p b) :
    analyze_email client s p b = some fallback_analysis := by
  rcases hfail with h0 | ⟨c, hc, hcr⟩
  · rw [h0]; rfl
  · rw [hc]; simp [analyze_email, hcr]

/-- The thread enhancement changes only the thread_context field and
possibly the priority, which it can set to High, or to Medium when the
base priority was Low. -/
theorem enhanceWithThread_fields (basic : AnalysisR) (email : Email) (ctx : List Email) :
    (enhanceWithThread basic email ctx).summary = basic.summary ∧
    (enhanceWithThread basic email ctx).category = basic.category ∧
    (enhanceWithThread basic email ctx).suggested_action = basic.suggested_action ∧
    (enhanceWithThread basic email ctx).urgency_indicators = basic.urgency_indicators ∧
    (enhanceWithThread basic email ctx).requires_response = basic.requires_response ∧
    (enhanceWithThread basic email ctx).estimated_response_time =
      basic.estimated_response_time ∧
    (enhanceWithThread basic email ctx).task_description = basic.task_description ∧
    (enhanceWithThread basic email ctx).thread_position = basic.thread_position ∧
    ((enhanceWithThread basic email ctx).priority = basic.priority ∨
     (enhanceWithThread basic email ctx).priority = "High" ∨
     (enhanceWithThread basic email ctx).priority = "Medium") := by
  unfold enhanceWithThread
  dsimp only
  split
  · exact ⟨rfl, rfl, rfl, rfl, rfl, rfl, rfl, rfl, Or.inr (Or.inl rfl)⟩
  · split
    · split
      · exact ⟨rfl, rfl, rfl, rfl, rfl, rfl, rfl, rfl, Or.inr (Or.inr rfl)⟩
      · exact ⟨rfl, rfl, rfl, rfl, rfl, rfl, rfl, rfl, Or.inl rfl⟩
    · exact ⟨rfl, rfl, rfl, rfl, rfl, rfl, rfl, rfl, Or.inl rfl⟩

/-- C1 (amended): when the classifier collaborator fails or is
misconfigured, analyze_email_with_context never returns none; it returns
a record carrying every fallback field verbatim except that priority,
Medium in the fallback, may be raised to High by the thread enhancement
(and a thread_context field may be attached).  (The unamended claim, that
the fallback record is returned verbatim, fails when the thread context
raises the reply urgency, see the counterexample.) -/
theorem classifier_failure_fallback (client : Option Classifier) (h : String → Int)
    (now : Nat) (email : Email) (all_emails : List Email)
    (hfail : classifier_fails client email.sender email.subject email.body) :
    ∃ r, analyze_email_with_context client h now email all_emails = some r ∧
      r.summary = "AI analysis unavailable" ∧ r.category = "Unknown" ∧
      r.suggested_action = "NoAction" ∧ r.urgency_indicators = [] ∧
      r.requires_response = false ∧ r.estimated_response_time = none ∧
      r.task_description = none ∧ r.thread_position = "Unknown" ∧
      (r.priority = "Medium" ∨ r.priority = "High") := by
  have hbase := analyze_email_of_fails client email.sender email.subject email.body hfail
  unfold analyze_email_with_context
  rw [hbase]
  dsimp only
  by_cases hae : all_emails = []
  · rw [if_pos hae]
    exact ⟨fallback_analysis, rfl, rfl, rfl, rfl, rfl, rfl, rfl, rfl, rfl, Or.inl rfl⟩
  · rw [if_neg hae]
    by_cases hctx : get_thread_context h now email all_emails = []
    · rw [if_pos hctx]
      exact ⟨fallback_analysis, rfl, rfl, rfl, rfl, rfl, rfl, rfl, rfl, rfl, Or.inl rfl⟩
    · rw [if_neg hctx]
      obtain ⟨h1, h2, h3, h4, h5, h6, h7, h8, h9⟩ :=
        enhanceWithThread_fields fallback_analysis email
          (get_thread_context h now email all_emails)
      refine ⟨_, rfl, h1, h2, h3, h4, h5, h6, h7, h8, ?_⟩
      rcases h9 with h9 | h9 | h9
      · exact Or.inl h9
      · exact Or.inr h9
      · exact Or.inl h9

/-- C1 witness: misconfigured collaborator (no client), no other
messages; the call returns a record with the fallback category. -/
theorem classifier_failure_fallback_witness :
    ∃ r, analyze_email_with_context none (fun _ => 0) 0
        { id := "1", sender := "a", subject := "s", body := "b", headers := [] } [] = some r ∧
      r.category = "Unknown" := by
  obtain ⟨r, hr, _, hcat, _⟩ :=
    classifier_failure_fallback none (fun _ => 0) 0
      { id := "1", sender := "a", subject := "s", body := "b", headers := [] } []
      (Or.inl rfl)
  exact ⟨r, hr, hcat⟩

/-- First message of the C1 counterexample thread. -/
def cx1A : Email := { id := "1", sender := "ann", subject := "", body := "", headers := [] }

/-- Candidate of the C1 counterexample: an urgency keyword in a non-first
message escalates the thread, so the enhanced fallback record gets
priority High. -/
def cx1B : Email := { id := "2", sender := "bob", subject := "", body := "urgent", headers := [] }

/-- C1 counterexample: with a failing classifier the returned record has
priority High, not the Medium of the verbatim fallback record. -/
theorem classifier_failure_fallback_cex :
    (analyze_email_with_context none (fun _ => 0) 0 cx1B [cx1A, cx1B]).map
      (fun r => r.priority) = some "High" ∧
    analyze_email_with_context none (fun _ => 0) 0 cx1B [cx1A, cx1B] ≠
      some fallback_analysis ∧
    ("High" : String) ≠ "Medium" := by
  refine ⟨by decide, by decide, by decide⟩

/-- C2 (amended): when the base classification call fails because the
collaborator is unreachable or misconfigured, the base call yields the
fallback record and analyze_email_with_context returns a record, not
none.  (The unamended claim, that such a failure makes the call return
none, fails on every input, see the counterexample; none arises only
when the classifier call succeeds with a response parsing to a non-record
JSON value.) -/
theorem base_failure_returns_record (client : Option Classifier) (h : String → Int)
    (now : Nat) (email : Email) (all_emails : List Email)
    (hfail : classifier_fails client email.sender email.subject email.body) :
    analyze_email client email.sender email.subject email.body = some fallback_analysis ∧
    analyze_email_with_context client h now email all_emails ≠ none := by
  have hbase := analyze_email_of_fails client email.sender email.subject email.body hfail
  refine ⟨hbase, ?_⟩
  unfold analyze_email_with_context
  rw [hbase]
  dsimp only
  by_cases hae : all_emails = []
  · simp [hae]
  · by_cases hctx : get_thread_context h now email all_emails = []
    · simp [hae, hctx]
    · simp [hae, hctx]

/-- C2 witness: misconfigured collaborator on a concrete message. -/
theorem base_failure_returns_record_witness :
    analyze_email none "a" "s" "b" = some fallback_analysis ∧
    analyze_email_with_context none (fun _ => 0) 0
      { id := "1", sender := "a", subject := "s", body := "b", headers := [] } [] ≠ none := by
  have hw := base_failure_returns_record none (fun _ => 0) 0
    { id := "1", sender := "a", subject := "s", body := "b", headers := [] } [] (Or.inl rfl)
  exact hw

/-- C2 counterexample: with the collaborator misconfigured (no client)
the call returns the fallback record, not none as the claim states. -/
theorem base_failure_returns_record_cex :
    analyze_email_with_context none (fun _ => 0) 0
      { id := "1", sender := "a", subject := "s", body := "b", headers := [] } [] =
      some fallback_analysis ∧
    some fallback_analysis ≠ (none : Option AnalysisR) := by
  refine ⟨by decide, by decide⟩

/-! ## Claims about the Thread Grouper (C4) -/

/-- The multiset of messages held by a bucket list. -/
def bucketsJoin (g : List (String × List Email)) : List Email :=
  (g.map Prod.snd).flatten

/-- Every bucket holds only messages resolving to its key. -/
def BucketsTid (h : String → Int) (g : List (String × List Email)) : Prop :=
  ∀ p ∈ g, ∀ x ∈ p.2, extract_thread_id h x = p.1

theorem insertByKey_perm (key : Email → Nat) (e : Email) :
    ∀ l, List.Perm (insertByKey key e l) (e :: l) := by
  intro l
  induction l with
  | nil => simp [insertByKey]
  | cons x xs ih =>
    unfold insertByKey
    split
    · exact List.Perm.refl _
    · exact (ih.cons x).trans (List.Perm.swap e x xs)

theorem sortByKey_perm (key : Email → Nat) :
    ∀ l, List.Perm (sortByKey key l) l := by
  intro l
  induction l with
  | nil => exact List.Perm.refl _
  | cons x xs ih =>
    unfold sortByKey
    exact (insertByKey_perm key x (sortByKey key xs)).trans (ih.cons x)

theorem addToBuckets_join_perm (k : String) (e : Email) :
    ∀ buckets, List.Perm (bucketsJoin (addToBuckets buckets k e)) (e :: bucketsJoin buckets) := by
  intro buckets
  induction buckets with
  | nil => simp [addToBuckets, bucketsJoin]
  | cons p rest ih =>
    obtain ⟨k', es⟩ := p
    unfold addToBuckets
    split
    · have hrw : bucketsJoin ((k', es ++ [e]) :: rest) = es ++ (e :: bucketsJoin rest) := by
        simp [bucketsJoin]
      have hrw2 : bucketsJoin ((k', es) :: rest) = es ++ bucketsJoin rest := by
        simp [bucketsJoin]
      rw [hrw, hrw2]
      exact List.perm_middle
    · have hrw : bucketsJoin ((k', es) :: addToBuckets rest k e) =
          es ++ bucketsJoin (addToBuckets rest k e) := by
        simp [bucketsJoin]
      have hrw2 : bucketsJoin ((k', es) :: rest) = es ++ bucketsJoin rest := by
        simp [bucketsJoin]
      rw [hrw, hrw2]
      exact ((List.Perm.append_left es ih).trans List.perm_middle)

theorem buildBuckets_join_perm (h : String → Int) :
    ∀ (emails : List Email) (acc : List (String × List Email)),
    List.Perm (bucketsJoin (buildBuckets h emails acc)) (bucketsJoin acc ++ emails) := by
  intro emails
  induction emails with
  | nil => intro acc; simp [buildBuckets]
  | cons e rest ih =>
    intro acc
    have step := ih (addToBuckets acc (extract_thread_id h e) e)
    have hperm : List.Perm (bucketsJoin (addToBuckets acc (extract_thread_id h e) e) ++ rest)
        ((e :: bucketsJoin acc) ++ rest) :=
      List.Perm.append (addToBuckets_join_perm (extract_thread_id h e) e acc)
        (List.Perm.refl rest)
    have final : List.Perm (bucketsJoin acc ++ (e :: rest)) (e :: (bucketsJoin acc ++ rest)) :=
      List.perm_middle
    exact ((step.trans hperm).trans final.symm)

theorem addToBuckets_tid (h : String → Int) (k : String) (e : Email)
    (he : extract_thread_id h e = k) :
    ∀ buckets, BucketsTid h buckets → BucketsTid h (addToBuckets buckets k e) := by
  intro buckets
  induction buckets with
  | nil =>
    intro _ p hp x hx
    simp [addToBuckets] at hp
    rw [hp] at hx
    simp at hx
    rw [hx, he, hp]
  | cons q rest ih =>
    obtain ⟨k', es⟩ := q
    intro hg p hp x hx
    have hghead : ∀ x ∈ es, extract_thread_id h x = k' := by
      intro y hy
      exact hg (k', es) (List.mem_cons_self _ _) y hy
    have hgrest : BucketsTid h rest := by
      intro q hq y hy
      exact hg q (List.mem_cons_of_mem _ hq) y hy
    unfold addToBuckets at hp
    by_cases hk : k' = k
    · rw [if_pos hk] at hp
      rcases List.mem_cons.mp hp with hp1 | hp2
      · rw [hp1] at hx ⊢
        rcases List.mem_append.mp hx with hx1 | hx2
        · exact hghead x hx1
        · simp at hx2
          rw [hx2, he, hk]
      · exact hgrest p hp2 x hx
    · rw [if_neg hk] at hp
      rcases List.mem_cons.mp hp with hp1 | hp2
      · rw [hp1] at hx ⊢
        exact hghead x hx
      · exact ih hgrest p hp2 x hx

theorem buildBuckets_tid (h : String → Int) :
    ∀ (emails : List Email) (acc : List (String × List Email)),
    BucketsTid h acc → BucketsTid h (buildBuckets h emails acc) := by
  intro emails
  induction emails with
  | nil => intro acc hacc; simpa [buildBuckets] using hacc
  | cons e rest ih =>
    intro acc hacc
    exact ih (addToBuckets acc (extract_thread_id h e) e)
      (addToBuckets_tid h (extract_thread_id h e) e rfl acc hacc)

theorem addToBuckets_fst (k : String) (e : Email) :
    ∀ buckets, (addToBuckets buckets k e).map Prod.fst =
      (if k ∈ buckets.map Prod.fst then buckets.map Prod.fst
       else buckets.map Prod.fst ++ [k]) := by
  intro buckets
  induction buckets with
  | nil => simp [addToBuckets]
  | cons q rest ih =>
    obtain ⟨k', es⟩ := q
    unfold addToBuckets
    by_cases hk : k' = k
    · rw [if_pos hk]
      have hmem : k ∈ List.map Prod.fst ((k', es) :: rest) := by simp [hk]
      rw [if_pos hmem]
      simp
    · rw [if_neg hk]
      by_cases hmem : k ∈ List.map Prod.fst rest
      · simp [ih, hmem, Ne.symm hk]
      · simp [ih, hmem, Ne.symm hk]

theorem addToBuckets_keys_nodup (k : String) (e : Email) (buckets : List (String × List Email))
    (hn : (buckets.map Prod.fst).Nodup) :
    ((addToBuckets buckets k e).map Prod.fst).Nodup := by
  rw [addToBuckets_fst]
  by_cases hmem : k ∈ buckets.map Prod.fst
  · rw [if_pos hmem]; exact hn
  · rw [if_neg hmem]
    simp [List.nodup_append, hn, hmem]

theorem buildBuckets_keys_nodup (h : String → Int) :
    ∀ (emails : List Email) (acc : List (String × List Email)),
    (acc.map Prod.fst).Nodup → ((buildBuckets h emails acc).map Prod.fst).Nodup := by
  intro emails
  induction emails with
  | nil => intro acc hacc; simpa [buildBuckets] using hacc
  | cons e rest ih =>
    intro acc hacc
    exact ih (addToBuckets acc (extract_thread_id h e) e)
      (addToBuckets_keys_nodup (extract_thread_id h e) e acc hacc)

theorem bucketsJoin_map_sort_perm (key : Email → Nat) :
    ∀ g, List.Perm (bucketsJoin (g.map (fun p => (p.1, sortByKey key p.2)))) (bucketsJoin g) := by
  intro g
  induction g with
  | nil => simp [bucketsJoin]
  | cons p rest ih =>
    have h1 : bucketsJoin ((p.1, sortByKey key p.2) :: rest.map (fun p => (p.1, sortByKey key p.2)))
        = sortByKey key p.2 ++ bucketsJoin (rest.map (fun p => (p.1, sortByKey key p.2))) := by
      simp [bucketsJoin]
    have h2 : bucketsJoin (p :: rest) = p.2 ++ bucketsJoin rest := by
      simp [bucketsJoin]
    simp only [List.map_cons]
    rw [h1, h2]
    exact List.Perm.append (sortByKey_perm key p.2) ih

/-- C4: the buckets of group_emails_by_thread are pairwise disjoint (any
message in one bucket is absent from every other), and each message of
the input occurs in the union of the buckets exactly as often as in the
input. -/
theorem grouping_partitions (h : String → Int) (now : Nat) (emails : List Email) :
    (group_emails_by_thread h now emails).Pairwise
      (fun p q => ∀ e, e ∈ p.2 → e ∉ q.2) ∧
    ∀ e : Email, (bucketsJoin (group_emails_by_thread h now emails)).count e =
      emails.count e := by
  have hbase_tid : BucketsTid h (buildBuckets h emails []) :=
    buildBuckets_tid h emails [] (by intro p hp; simp at hp)
  have hbase_nodup : ((buildBuckets h emails []).map Prod.fst).Nodup :=
    buildBuckets_keys_nodup h emails [] (by simp)
  have hg_tid : BucketsTid h (group_emails_by_thread h now emails) := by
    intro p hp x hx
    unfold group_emails_by_thread at hp
    obtain ⟨q, hq, hqp⟩ := List.mem_map.mp hp
    have hx2 : x ∈ q.2 := by
      rw [← hqp] at hx
      exact (sortByKey_perm (get_email_timestamp now) q.2).mem_iff.mp hx
    rw [← hqp]
    exact hbase_tid q hq x hx2
  have hg_keys : ((group_emails_by_thread h now emails).map Prod.fst).Nodup := by
    unfold group_emails_by_thread
    rw [List.map_map]
    have : (Prod.fst ∘ fun p : String × List Email => (p.1, sortByKey (get_email_timestamp now) p.2))
        = Prod.fst := by
      funext p
      rfl
    rw [this]
    exact hbase_nodup
  constructor
  · have hpw : (group_emails_by_thread h now emails).Pairwise (fun p q => p.1 ≠ q.1) :=
      List.pairwise_map.mp hg_keys
    refine List.Pairwise.imp_of_mem ?_ hpw
    intro p q hp hq hne e hep heq
    have h1 := hg_tid p hp e hep
    have h2 := hg_tid q hq e heq
    exact hne (h1.symm.trans h2)
  · intro e
    have hperm : List.Perm (bucketsJoin (group_emails_by_thread h now emails)) emails := by
      unfold group_emails_by_thread
      have p1 := bucketsJoin_map_sort_perm (get_email_timestamp now) (buildBuckets h emails [])
      have p2 := buildBuckets_join_perm h emails []
      have p3 : bucketsJoin ([] : List (String × List Email)) ++ emails = emails := by
        simp [bucketsJoin]
      rw [p3] at p2
      exact p1.trans p2
    exact hperm.count_eq e

/-- First message of the C4 witness input. -/
def w4A : Email := { id := "1", sender := "ann", subject := "alpha", body := "", headers := [] }

/-- Second message of the C4 witness input (distinct thread). -/
def w4B : Email := { id := "2", sender := "bob", subject := "beta", body := "", headers := [] }

/-- C4 witness: on a concrete two-message input the bucket union counts
the first message exactly as often as the input does. -/
theorem grouping_partitions_witness :
    (bucketsJoin (group_emails_by_thread (fun s => Int.ofNat s.length) 0 [w4A, w4B])).count w4A
      = ([w4A, w4B].count w4A) :=
  (grouping_partitions (fun s => Int.ofNat s.length) 0 [w4A, w4B]).2 w4A

end Mailctl
